import Mathlib

/-
Verification of pyspark.ml.image (src/python/pyspark/ml/image.py):
a shallow embedding of the image-schema accessor and its two conversion
operations, with theorems settling the specified properties.
-/

/-- Values that can sit in a Spark Row cell, as used by the image schema:
text (origin), integers (height, width, nChannels, mode) and a byte
sequence (data, each byte in 0..255). -/
inductive PyVal where
  | str (s : String)
  | int (n : Int)
  | bytes (b : List Nat)
deriving DecidableEq, Repr

/-- A Spark Row as produced by pyspark.sql.types with a fixed field-name
list: an ordered list of field names paired positionally with an ordered
list of values. Embeds the result of calling the pyspark helper that
builds a Row from a field list and a value list, which keeps both lists
in the given order and never reorders by name. -/
structure Row where
  fields : List String
  values : List PyVal
deriving DecidableEq, Repr

/-- Attribute access on a Row by field name, as Python resolves
image.height and the like: the index of the first occurrence of the name
in the field list selects the value at the same position; a missing name
or an index past the end of the value list yields none (an attribute or
index error in Python). -/
def lookupField : List String → List PyVal → String → Option PyVal
  | f :: fs, v :: vs, name => if f = name then some v else lookupField fs vs name
  | _, _, _ => none

/-- Named field access on a Row. -/
def Row.get (r : Row) (name : String) : Option PyVal :=
  lookupField r.fields r.values name

/-- A numpy ndarray of integer dtype: its shape, and its elements
flattened in row-major (C) order. The length of the flat data always
equals the product of the shape, as numpy guarantees. -/
structure NDArray where
  shape : List Nat
  data : List Int
  wf : data.length = shape.prod

/-- Number of dimensions of the array, numpy ndim. -/
def NDArray.ndim (a : NDArray) : Nat := a.shape.length

/-- Elementwise cast of an integer array to unsigned 8-bit, numpy astype
with the uint8 dtype: each element is reduced modulo 256 (C-style wrap). -/
def NDArray.astypeUint8 (a : NDArray) : NDArray :=
  { shape := a.shape
    data := a.data.map (fun x => x % 256)
    wf := by rw [List.length_map]; exact a.wf }

/-- Modelled from the spec: the Field Name List the accessor fetches from
the external engine, which is not part of the given source tree (only the
engine-bridge call appears there). Per the spec, it is the ordered list of
the six field names of an Image Row: origin, height, width, nChannels,
mode, data, in that exact order. -/
def imageFields : List String :=
  ["origin", "height", "width", "nChannels", "mode", "data"]

/-- The array-to-row conversion toImage. Parameters carry the two pieces
of engine metadata the method reads from the accessor: ocv is the
Encoding Map (name to integer code; the spec requires the three 8-bit
entries to be present, so it is modelled as a total function) and fields
is the field-name list used for row construction. The body follows the
source line by line: reject a non-3-dimensional array with the message
Invalid array shape; destructure the shape into height, width, nChannels;
select the mode code for 1, 3 or 4 channels or fail with the message
Invalid number of channels; cast the data to unsigned 8-bit, flatten it
row-major into a byte sequence; build the row positionally from the field
list and the value list origin, height, width, nChannels, mode, data. -/
def toImage (ocv : String → Int) (fields : List String) (array : NDArray)
    (origin : String) : Except String Row :=
  match array.shape with
  | [height, width, nChannels] =>
    (if nChannels = 1 then Except.ok (ocv "CV_8UC1")
     else if nChannels = 3 then Except.ok (ocv "CV_8UC3")
     else if nChannels = 4 then Except.ok (ocv "CV_8UC4")
     else Except.error "Invalid number of channels").map (fun mode =>
      { fields := fields
        values := [PyVal.str origin, PyVal.int height, PyVal.int width,
                   PyVal.int nChannels, PyVal.int mode,
                   PyVal.bytes (array.data.map (fun x => (x % 256).toNat))] })
  | _ => Except.error "Invalid array shape"

/-- Calling toImage without the origin argument: the Python signature
gives origin the default value of the empty string. -/
def toImageNoOrigin (ocv : String → Int) (fields : List String)
    (array : NDArray) : Except String Row :=
  toImage ocv fields array ""

/-- The numpy ndarray constructor as toNDArray calls it: dtype uint8,
shape (h, w, c), an existing byte buffer, and the contiguous strides
(w*c, c, 1). numpy rejects a negative dimension and rejects a buffer
shorter than the h*w*c bytes the strides address; otherwise the view
reads the first h*w*c bytes of the buffer in row-major order. -/
def npNdarrayUint8 (h w c : Int) (buf : List Nat) : Option NDArray :=
  if hok : 0 ≤ h ∧ 0 ≤ w ∧ 0 ≤ c ∧ h.toNat * w.toNat * c.toNat ≤ buf.length then
    some { shape := [h.toNat, w.toNat, c.toNat]
           data := (buf.take (h.toNat * w.toNat * c.toNat)).map Int.ofNat
           wf := by
             rw [List.length_map, List.length_take,
               Nat.min_eq_left hok.2.2.2]
             simp [Nat.mul_assoc] }
  else none

/-- Conversion of a PyVal to a Python integer where one is required. -/
def asInt : PyVal → Option Int
  | PyVal.int n => some n
  | _ => none

/-- Conversion of a PyVal to a byte buffer where one is required. -/
def asBytes : PyVal → Option (List Nat)
  | PyVal.bytes b => some b
  | _ => none

/-- The row-to-array conversion toNDArray, following the source: read the
height, width, nChannels and data fields of the row by name, then build a
uint8 ndarray view over the data buffer with shape (height, width,
nChannels) and strides (width*nChannels, nChannels, 1). No other field of
the row is read and no validation is performed beyond what the ndarray
constructor itself does. -/
def toNDArray (image : Row) : Option NDArray := do
  let height ← (image.get "height").bind asInt
  let width ← (image.get "width").bind asInt
  let nChannels ← (image.get "nChannels").bind asInt
  let data ← (image.get "data").bind asBytes
  npNdarrayUint8 height width nChannels data

/-- The mutable state of the accessor object: the four lazily cached
metadata fields, each starting as None (here none) and set on first
successful fetch. The schema is held as its parsed form, the OpenCV type
map as an association list copied from the engine dict, the field list as
a list of names, the undefined-image type as a string. -/
structure AccessorState where
  _imageSchema : Option String
  _ocvTypes : Option (List (String × Int))
  _imageFields : Option (List String)
  _undefinedImageType : Option String
deriving DecidableEq, Repr

/-- The state the original constructor of the accessor class builds: all
four cached fields unset. -/
def initAccessorState : AccessorState :=
  { _imageSchema := none, _ocvTypes := none, _imageFields := none
    _undefinedImageType := none }

/-- One round trip to the external engine for each of the four metadata
items, as seen from the accessor: each fetch either returns the value or
fails (no active session, bridge failure), in which case the exception
propagates. -/
structure Engine where
  fetchSchema : Except String String
  fetchOcvTypes : Except String (List (String × Int))
  fetchImageFields : Except String (List String)
  fetchUndefinedImageType : Except String String

/-- The imageSchema property: if the cached field is unset, fetch from
the engine (parse included) and cache on success; a failed fetch
propagates and assigns nothing. Returns the new state, the result, and
whether an engine round trip happened. -/
def imageSchemaProp (e : Engine) (st : AccessorState) :
    AccessorState × Except String String × Bool :=
  match st._imageSchema with
  | some v => (st, Except.ok v, false)
  | none =>
    match e.fetchSchema with
    | Except.ok v => ({ st with _imageSchema := some v }, Except.ok v, true)
    | Except.error msg => (st, Except.error msg, true)

/-- The ocvTypes property, same lazy-caching shape as imageSchemaProp. -/
def ocvTypesProp (e : Engine) (st : AccessorState) :
    AccessorState × Except String (List (String × Int)) × Bool :=
  match st._ocvTypes with
  | some v => (st, Except.ok v, false)
  | none =>
    match e.fetchOcvTypes with
    | Except.ok v => ({ st with _ocvTypes := some v }, Except.ok v, true)
    | Except.error msg => (st, Except.error msg, true)

/-- The imageFields property, same lazy-caching shape. -/
def imageFieldsProp (e : Engine) (st : AccessorState) :
    AccessorState × Except String (List String) × Bool :=
  match st._imageFields with
  | some v => (st, Except.ok v, false)
  | none =>
    match e.fetchImageFields with
    | Except.ok v => ({ st with _imageFields := some v }, Except.ok v, true)
    | Except.error msg => (st, Except.error msg, true)

/-- The undefinedImageType property, same lazy-caching shape. -/
def undefinedImageTypeProp (e : Engine) (st : AccessorState) :
    AccessorState × Except String String × Bool :=
  match st._undefinedImageType with
  | some v => (st, Except.ok v, false)
  | none =>
    match e.fetchUndefinedImageType with
    | Except.ok v => ({ st with _undefinedImageType := some v }, Except.ok v, true)
    | Except.error msg => (st, Except.error msg, true)

/-- The replacement constructor installed over the accessor class after
the module-level singleton is built: it ignores its argument and raises
at once, so it can never produce an instance state and never touches any
field. An attempted construction is modelled as the Except value this
function returns, where ok would carry the state of a fresh instance. -/
def disallowInstance : Except String AccessorState :=
  Except.error "Creating instance of _ImageSchema class is disallowed."


/-- A concrete Encoding Map for witnesses, carrying the usual OpenCV
codes for the three 8-bit layouts. -/
def ocvTest : String → Int := fun s =>
  if s = "CV_8UC1" then 0 else if s = "CV_8UC3" then 16
  else if s = "CV_8UC4" then 24 else -1

/-- A concrete 1 by 2 by 3 test array with elements outside 0..255 to
exercise the unsigned 8-bit cast. -/
def arrTest : NDArray := ⟨[1, 2, 3], [0, 5, 300, -1, 255, 256], by decide⟩

/-- A concrete 2-dimensional test array. -/
def arr2dTest : NDArray := ⟨[2, 3], [0, 1, 2, 3, 4, 5], by decide⟩

/-- The row toImage builds from arrTest with origin x. -/
def rowTest : Row :=
  ⟨imageFields, [PyVal.str "x", PyVal.int 1, PyVal.int 2, PyVal.int 3,
    PyVal.int 16, PyVal.bytes [0, 5, 44, 255, 255, 0]]⟩

/-- The row toImage builds from arrTest with the default origin. -/
def rowTest0 : Row :=
  ⟨imageFields, [PyVal.str "", PyVal.int 1, PyVal.int 2, PyVal.int 3,
    PyVal.int 16, PyVal.bytes [0, 5, 44, 255, 255, 0]]⟩

/-- A row like rowTest but with a different origin and mode. -/
def rowVariant : Row :=
  ⟨imageFields, [PyVal.str "other", PyVal.int 1, PyVal.int 2, PyVal.int 3,
    PyVal.int 24, PyVal.bytes [0, 5, 44, 255, 255, 0]]⟩

/-- A malformed row whose data is longer than height times width times
nChannels. -/
def rowLong : Row :=
  ⟨imageFields, [PyVal.str "", PyVal.int 1, PyVal.int 1, PyVal.int 3,
    PyVal.int 16, PyVal.bytes [7, 8, 9, 10, 11]]⟩

/-- A concrete engine connection for witnesses. -/
def engineTest : Engine :=
  ⟨Except.ok "imageSchemaJson", Except.ok [("CV_8UC1", 0)],
   Except.ok imageFields, Except.ok "Undefined"⟩

theorem NDArray.eq_of_parts {a b : NDArray} (hs : a.shape = b.shape)
    (hd : a.data = b.data) : a = b := by
  cases a; cases b; simp only at hs hd; subst hs; subst hd; rfl

theorem toImage_ok_elim {ocv : String → Int} {fields : List String}
    {A : NDArray} {origin : String} {row : Row}
    (hok : toImage ocv fields A origin = Except.ok row) :
    ∃ h w c, A.shape = [h, w, c] ∧ (c = 1 ∨ c = 3 ∨ c = 4) ∧
      row = { fields := fields
              values := [PyVal.str origin, PyVal.int h, PyVal.int w,
                PyVal.int c,
                PyVal.int (if c = 1 then ocv "CV_8UC1"
                  else if c = 3 then ocv "CV_8UC3" else ocv "CV_8UC4"),
                PyVal.bytes (A.data.map (fun x => (x % 256).toNat))] } := by
  rcases hA : A.shape with _ | ⟨a, _ | ⟨b, _ | ⟨c, _ | ⟨d, rest⟩⟩⟩⟩ <;>
    simp [toImage, hA] at hok
  refine ⟨a, b, c, rfl, ?_⟩
  by_cases h1 : c = 1
  · subst h1; simp [Except.map] at hok; exact ⟨Or.inl rfl, by simp [← hok]⟩
  · by_cases h3 : c = 3
    · subst h3; simp [Except.map] at hok
      exact ⟨Or.inr (Or.inl rfl), by simp [← hok]⟩
    · by_cases h4 : c = 4
      · subst h4; simp [Except.map] at hok
        exact ⟨Or.inr (Or.inr rfl), by simp [h1, h3, ← hok]⟩
      · simp [h1, h3, h4, Except.map] at hok

/-- Claim C3: toImage fails with the message Invalid array shape exactly
when the input array is not 3-dimensional; a 3-dimensional input never
produces that error. -/
theorem toImage_shape_validation (ocv : String → Int) (fields : List String)
    (A : NDArray) (origin : String) :
    (A.ndim ≠ 3 → toImage ocv fields A origin = Except.error "Invalid array shape") ∧
    (A.ndim = 3 → toImage ocv fields A origin ≠ Except.error "Invalid array shape") := by
  constructor
  · intro hne
    rcases hA : A.shape with _ | ⟨a, _ | ⟨b, _ | ⟨c, _ | ⟨d, rest⟩⟩⟩⟩
    · simp [toImage, hA]
    · simp [toImage, hA]
    · simp [toImage, hA]
    · exact absurd (by simp [NDArray.ndim, hA]) hne
    · simp [toImage, hA]
  · intro h3 hcontra
    rcases hA : A.shape with _ | ⟨a, _ | ⟨b, _ | ⟨c, _ | ⟨d, rest⟩⟩⟩⟩ <;>
      simp [NDArray.ndim, hA] at h3
    simp [toImage, hA] at hcontra
    by_cases h1 : c = 1 <;> by_cases hc3 : c = 3 <;> by_cases h4 : c = 4 <;>
      simp [h1, hc3, h4, Except.map] at hcontra

/-- Claim C2: on a 3-dimensional array, toImage resolves the mode from
the channel count: 1 channel to the CV_8UC1 entry of the Encoding Map, 3
to CV_8UC3, 4 to CV_8UC4; any other channel count fails with the message
Invalid number of channels. -/
theorem toImage_channel_mode (ocv : String → Int) (A : NDArray)
    (origin : String) (h w c : Nat) (hsh : A.shape = [h, w, c]) :
    (c = 1 → ∃ row, toImage ocv imageFields A origin = Except.ok row ∧
        row.get "mode" = some (PyVal.int (ocv "CV_8UC1"))) ∧
    (c = 3 → ∃ row, toImage ocv imageFields A origin = Except.ok row ∧
        row.get "mode" = some (PyVal.int (ocv "CV_8UC3"))) ∧
    (c = 4 → ∃ row, toImage ocv imageFields A origin = Except.ok row ∧
        row.get "mode" = some (PyVal.int (ocv "CV_8UC4"))) ∧
    (c ≠ 1 → c ≠ 3 → c ≠ 4 →
      toImage ocv imageFields A origin = Except.error "Invalid number of channels") := by
  refine ⟨?_, ?_, ?_, ?_⟩
  · rintro rfl
    refine ⟨{ fields := imageFields
              values := [PyVal.str origin, PyVal.int h, PyVal.int w,
                PyVal.int 1, PyVal.int (ocv "CV_8UC1"),
                PyVal.bytes (A.data.map (fun x => (x % 256).toNat))] },
      by simp [toImage, hsh, Except.map], ?_⟩
    simp [Row.get, imageFields, lookupField]
  · rintro rfl
    refine ⟨{ fields := imageFields
              values := [PyVal.str origin, PyVal.int h, PyVal.int w,
                PyVal.int 3, PyVal.int (ocv "CV_8UC3"),
                PyVal.bytes (A.data.map (fun x => (x % 256).toNat))] },
      by simp [toImage, hsh, Except.map], ?_⟩
    simp [Row.get, imageFields, lookupField]
  · rintro rfl
    refine ⟨{ fields := imageFields
              values := [PyVal.str origin, PyVal.int h, PyVal.int w,
                PyVal.int 4, PyVal.int (ocv "CV_8UC4"),
                PyVal.bytes (A.data.map (fun x => (x % 256).toNat))] },
      by simp [toImage, hsh, Except.map], ?_⟩
    simp [Row.get, imageFields, lookupField]
  · intro h1 h3 h4
    simp [toImage, hsh, h1, h3, h4, Except.map]

/-- Claim C8: calling toImage without an origin argument yields a row
whose origin field is the empty string. -/
theorem toImage_origin_default (ocv : String → Int) (A : NDArray)
    (row : Row) (hok : toImageNoOrigin ocv imageFields A = Except.ok row) :
    row.get "origin" = some (PyVal.str "") := by
  rw [toImageNoOrigin] at hok
  obtain ⟨h, w, c, hsh, hc, hrow⟩ := toImage_ok_elim hok
  subst hrow
  simp [Row.get, imageFields, lookupField]

/-- Claim C7: every row toImage produces carries its values positionally
in the order origin, height, width, nChannels, mode, data, whatever the
field-name list fetched from the engine contains and in whatever order. -/
theorem toImage_field_order (ocv : String → Int) (fields : List String)
    (A : NDArray) (origin : String) (row : Row)
    (hok : toImage ocv fields A origin = Except.ok row) :
    ∃ h w c m d, A.shape = [h, w, c] ∧
      row.values = [PyVal.str origin, PyVal.int h, PyVal.int w,
        PyVal.int c, PyVal.int m, PyVal.bytes d] := by
  obtain ⟨h, w, c, hsh, hc, hrow⟩ := toImage_ok_elim hok
  exact ⟨h, w, c, _, _, hsh, by rw [hrow]⟩

/-- Claim C4: in every row toImage produces, the data byte sequence has
length exactly height times width times nChannels, read back from the
fields of the row itself. -/
theorem toImage_data_length (ocv : String → Int) (A : NDArray)
    (origin : String) (row : Row)
    (hok : toImage ocv imageFields A origin = Except.ok row) :
    ∃ (h w c : Nat) (d : List Nat),
      row.get "height" = some (PyVal.int h) ∧
      row.get "width" = some (PyVal.int w) ∧
      row.get "nChannels" = some (PyVal.int c) ∧
      row.get "data" = some (PyVal.bytes d) ∧
      d.length = h * w * c := by
  obtain ⟨h, w, c, hsh, hc, hrow⟩ := toImage_ok_elim hok
  subst hrow
  refine ⟨h, w, c, A.data.map (fun x => (x % 256).toNat), ?_, ?_, ?_, ?_, ?_⟩
  · simp [Row.get, imageFields, lookupField]
  · simp [Row.get, imageFields, lookupField]
  · simp [Row.get, imageFields, lookupField]
  · simp [Row.get, imageFields, lookupField]
  · rw [List.length_map, A.wf, hsh]
    simp [Nat.mul_assoc]

theorem npNdarrayUint8_exact (h w c : Nat) (buf : List Nat)
    (hlen : h * w * c ≤ buf.length) :
    ∃ arr, npNdarrayUint8 h w c buf = some arr ∧ arr.shape = [h, w, c] ∧
      arr.data = (buf.take (h * w * c)).map Int.ofNat := by
  have hcond : 0 ≤ (h : Int) ∧ 0 ≤ (w : Int) ∧ 0 ≤ (c : Int) ∧
      ((h : Int)).toNat * ((w : Int)).toNat * ((c : Int)).toNat ≤ buf.length := by
    simpa using hlen
  rw [npNdarrayUint8, dif_pos hcond]
  exact ⟨_, rfl, by simp, by simp⟩

/-- Claim C1: a 3-dimensional array with 1, 3 or 4 channels converted to
a row by toImage and back by toNDArray comes back as the original array
cast to unsigned 8-bit, shape preserved. -/
theorem toImage_toNDArray_roundtrip (ocv : String → Int) (A : NDArray)
    (origin : String) (h w c : Nat) (hsh : A.shape = [h, w, c])
    (hc : c = 1 ∨ c = 3 ∨ c = 4) :
    ∃ row, toImage ocv imageFields A origin = Except.ok row ∧
      toNDArray row = some A.astypeUint8 ∧
      A.astypeUint8.shape = [h, w, c] := by
  have hlen : (A.data.map (fun x => (x % 256).toNat)).length = h * w * c := by
    rw [List.length_map, A.wf, hsh]; simp [Nat.mul_assoc]
  have hmode : ∃ m, toImage ocv imageFields A origin = Except.ok
      { fields := imageFields
        values := [PyVal.str origin, PyVal.int h, PyVal.int w,
          PyVal.int c, PyVal.int m,
          PyVal.bytes (A.data.map (fun x => (x % 256).toNat))] } := by
    rcases hc with rfl | rfl | rfl
    · exact ⟨ocv "CV_8UC1", by simp [toImage, hsh, Except.map]⟩
    · exact ⟨ocv "CV_8UC3", by simp [toImage, hsh, Except.map]⟩
    · exact ⟨ocv "CV_8UC4", by simp [toImage, hsh, Except.map]⟩
  obtain ⟨m, hok⟩ := hmode
  refine ⟨_, hok, ?_, by simp [NDArray.astypeUint8, hsh]⟩
  obtain ⟨arr, harr, hashape, hadata⟩ :=
    npNdarrayUint8_exact h w c (A.data.map (fun x => (x % 256).toNat))
      (le_of_eq hlen.symm)
  have : toNDArray
      { fields := imageFields
        values := [PyVal.str origin, PyVal.int h, PyVal.int w,
          PyVal.int c, PyVal.int m,
          PyVal.bytes (A.data.map (fun x => (x % 256).toNat))] } =
      npNdarrayUint8 h w c (A.data.map (fun x => (x % 256).toNat)) := by
    simp [toNDArray, Row.get, imageFields, lookupField, asInt, asBytes]
  rw [this, harr]
  congr 1
  refine NDArray.eq_of_parts ?_ ?_
  · rw [hashape]; simp [NDArray.astypeUint8, hsh]
  · rw [hadata, ← hlen, List.take_length, NDArray.astypeUint8]
    rw [List.map_map]
    refine List.map_congr_left (fun x hx => ?_)
    simp [Int.toNat_of_nonneg (Int.emod_nonneg x (by norm_num : (256 : Int) ≠ 0))]

/-- Claim C10: toNDArray reads only the height, width, nChannels and data
fields of the row; two rows agreeing on those four fields convert to the
same result, whatever their origin and mode fields hold. -/
theorem toNDArray_ignores_origin_mode (r1 r2 : Row)
    (hh : r1.get "height" = r2.get "height")
    (hw : r1.get "width" = r2.get "width")
    (hc : r1.get "nChannels" = r2.get "nChannels")
    (hd : r1.get "data" = r2.get "data") :
    toNDArray r1 = toNDArray r2 := by
  simp only [toNDArray, hh, hw, hc, hd]

/-- Counterexample to claim C9 as stated: on a malformed row whose data
buffer is shorter than height times width times nChannels (here a 1 by 1
by 3 row carrying a single byte), the underlying ndarray construction
fails, so toNDArray does not return an array. -/
theorem toNDArray_short_buffer_fails :
    toNDArray
      { fields := imageFields
        values := [PyVal.str "", PyVal.int 1, PyVal.int 1, PyVal.int 3,
                   PyVal.int 16, PyVal.bytes [7]] } = none := by
  rfl

/-- Claim C9 amended: toNDArray performs no validation of its own.
Whenever the data buffer holds at least height times width times
nChannels bytes, it returns an array of shape (height, width, nChannels)
read from the buffer prefix, even when the data length does not equal
that product; only when the buffer is strictly shorter does the
underlying ndarray construction fail. -/
theorem toNDArray_no_validation (r : Row) (h w c : Nat) (d : List Nat)
    (hh : r.get "height" = some (PyVal.int h))
    (hw : r.get "width" = some (PyVal.int w))
    (hc : r.get "nChannels" = some (PyVal.int c))
    (hd : r.get "data" = some (PyVal.bytes d)) :
    (h * w * c ≤ d.length →
      ∃ arr, toNDArray r = some arr ∧ arr.shape = [h, w, c] ∧
        arr.data = (d.take (h * w * c)).map Int.ofNat) ∧
    (d.length < h * w * c → toNDArray r = none) := by
  have hrun : toNDArray r = npNdarrayUint8 h w c d := by
    simp [toNDArray, hh, hw, hc, hd, asInt, asBytes]
  constructor
  · intro hle
    obtain ⟨arr, harr, hs, hdta⟩ := npNdarrayUint8_exact h w c d hle
    exact ⟨arr, by rw [hrun, harr], hs, hdta⟩
  · intro hlt
    rw [hrun, npNdarrayUint8, dif_neg]
    intro hcond
    have := hcond.2.2.2
    simp at this
    omega

/-- Claim C5: after module load the constructor of the accessor class is
the raising replacement, so every attempted construction of a further
instance yields the disallowed-instance error, no attempt ever yields an
instance state, and in particular no attempt produces any initialized
state, complete or otherwise. -/
theorem disallow_instance_guard :
    disallowInstance =
      Except.error "Creating instance of _ImageSchema class is disallowed." ∧
    ∀ st : AccessorState, disallowInstance ≠ Except.ok st := by
  exact ⟨rfl, fun st h => by simp [disallowInstance] at h⟩

/-- Claim C6: each of the four cached metadata fields is independently
unset or cached. Reading a cached field returns the identical value with
no engine fetch and no state change; reading an unset field fetches once,
and on success caches the fetched value (the only unset-to-cached
transition) while on failure it propagates the error and leaves the field
unset, so the next access fetches again; a read of one field never
touches the other three; and a second read right after a successful first
read returns the identical value with no further fetch, whatever engine
connection is active then. -/
theorem metadata_caching_state_machine (e e2 : Engine) (st : AccessorState) :
    ((∀ v, st._imageSchema = some v →
        imageSchemaProp e st = (st, Except.ok v, false)) ∧
     (∀ v, st._imageSchema = none → e.fetchSchema = Except.ok v →
        imageSchemaProp e st =
          ({ st with _imageSchema := some v }, Except.ok v, true)) ∧
     (∀ m, st._imageSchema = none → e.fetchSchema = Except.error m →
        imageSchemaProp e st = (st, Except.error m, true)) ∧
     ((imageSchemaProp e st).1._ocvTypes = st._ocvTypes ∧
      (imageSchemaProp e st).1._imageFields = st._imageFields ∧
      (imageSchemaProp e st).1._undefinedImageType = st._undefinedImageType) ∧
     (∀ v, st._imageSchema = none → e.fetchSchema = Except.ok v →
        imageSchemaProp e2 (imageSchemaProp e st).1 =
          ((imageSchemaProp e st).1, Except.ok v, false))) ∧
    ((∀ v, st._ocvTypes = some v →
        ocvTypesProp e st = (st, Except.ok v, false)) ∧
     (∀ v, st._ocvTypes = none → e.fetchOcvTypes = Except.ok v →
        ocvTypesProp e st =
          ({ st with _ocvTypes := some v }, Except.ok v, true)) ∧
     (∀ m, st._ocvTypes = none → e.fetchOcvTypes = Except.error m →
        ocvTypesProp e st = (st, Except.error m, true)) ∧
     ((ocvTypesProp e st).1._imageSchema = st._imageSchema ∧
      (ocvTypesProp e st).1._imageFields = st._imageFields ∧
      (ocvTypesProp e st).1._undefinedImageType = st._undefinedImageType) ∧
     (∀ v, st._ocvTypes = none → e.fetchOcvTypes = Except.ok v →
        ocvTypesProp e2 (ocvTypesProp e st).1 =
          ((ocvTypesProp e st).1, Except.ok v, false))) ∧
    ((∀ v, st._imageFields = some v →
        imageFieldsProp e st = (st, Except.ok v, false)) ∧
     (∀ v, st._imageFields = none → e.fetchImageFields = Except.ok v →
        imageFieldsProp e st =
          ({ st with _imageFields := some v }, Except.ok v, true)) ∧
     (∀ m, st._imageFields = none → e.fetchImageFields = Except.error m →
        imageFieldsProp e st = (st, Except.error m, true)) ∧
     ((imageFieldsProp e st).1._imageSchema = st._imageSchema ∧
      (imageFieldsProp e st).1._ocvTypes = st._ocvTypes ∧
      (imageFieldsProp e st).1._undefinedImageType = st._undefinedImageType) ∧
     (∀ v, st._imageFields = none → e.fetchImageFields = Except.ok v →
        imageFieldsProp e2 (imageFieldsProp e st).1 =
          ((imageFieldsProp e st).1, Except.ok v, false))) ∧
    ((∀ v, st._undefinedImageType = some v →
        undefinedImageTypeProp e st = (st, Except.ok v, false)) ∧
     (∀ v, st._undefinedImageType = none →
        e.fetchUndefinedImageType = Except.ok v →
        undefinedImageTypeProp e st =
          ({ st with _undefinedImageType := some v }, Except.ok v, true)) ∧
     (∀ m, st._undefinedImageType = none →
        e.fetchUndefinedImageType = Except.error m →
        undefinedImageTypeProp e st = (st, Except.error m, true)) ∧
     ((undefinedImageTypeProp e st).1._imageSchema = st._imageSchema ∧
      (undefinedImageTypeProp e st).1._ocvTypes = st._ocvTypes ∧
      (undefinedImageTypeProp e st).1._imageFields = st._imageFields) ∧
     (∀ v, st._undefinedImageType = none →
        e.fetchUndefinedImageType = Except.ok v →
        undefinedImageTypeProp e2 (undefinedImageTypeProp e st).1 =
          ((undefinedImageTypeProp e st).1, Except.ok v, false))) := by
  refine ⟨⟨?_, ?_, ?_, ?_, ?_⟩, ⟨?_, ?_, ?_, ?_, ?_⟩,
    ⟨?_, ?_, ?_, ?_, ?_⟩, ⟨?_, ?_, ?_, ?_, ?_⟩⟩
  · intro v hv; simp [imageSchemaProp, hv]
  · intro v hn hf; simp [imageSchemaProp, hn, hf]
  · intro m hn hf; simp [imageSchemaProp, hn, hf]
  · cases hs : st._imageSchema <;> cases he : e.fetchSchema <;>
      simp [imageSchemaProp, hs, he]
  · intro v hn hf; simp [imageSchemaProp, hn, hf]
  · intro v hv; simp [ocvTypesProp, hv]
  · intro v hn hf; simp [ocvTypesProp, hn, hf]
  · intro m hn hf; simp [ocvTypesProp, hn, hf]
  · cases hs : st._ocvTypes <;> cases he : e.fetchOcvTypes <;>
      simp [ocvTypesProp, hs, he]
  · intro v hn hf; simp [ocvTypesProp, hn, hf]
  · intro v hv; simp [imageFieldsProp, hv]
  · intro v hn hf; simp [imageFieldsProp, hn, hf]
  · intro m hn hf; simp [imageFieldsProp, hn, hf]
  · cases hs : st._imageFields <;> cases he : e.fetchImageFields <;>
      simp [imageFieldsProp, hs, he]
  · intro v hn hf; simp [imageFieldsProp, hn, hf]
  · intro v hv; simp [undefinedImageTypeProp, hv]
  · intro v hn hf; simp [undefinedImageTypeProp, hn, hf]
  · intro m hn hf; simp [undefinedImageTypeProp, hn, hf]
  · cases hs : st._undefinedImageType <;> cases he : e.fetchUndefinedImageType <;>
      simp [undefinedImageTypeProp, hs, he]
  · intro v hn hf; simp [undefinedImageTypeProp, hn, hf]

theorem roundtrip_witness :
    arrTest.shape = [1, 2, 3] ∧ ((3 : Nat) = 1 ∨ (3 : Nat) = 3 ∨ (3 : Nat) = 4) ∧
    ∃ row, toImage ocvTest imageFields arrTest "img.png" = Except.ok row ∧
      toNDArray row = some arrTest.astypeUint8 ∧
      arrTest.astypeUint8.shape = [1, 2, 3] :=
  ⟨rfl, by decide,
    toImage_toNDArray_roundtrip ocvTest arrTest "img.png" 1 2 3 rfl (by decide)⟩

theorem channel_mode_witness :
    arrTest.shape = [1, 2, 3] ∧
    (((3 : Nat) = 1 → ∃ row, toImage ocvTest imageFields arrTest "" = Except.ok row ∧
        row.get "mode" = some (PyVal.int (ocvTest "CV_8UC1"))) ∧
     ((3 : Nat) = 3 → ∃ row, toImage ocvTest imageFields arrTest "" = Except.ok row ∧
        row.get "mode" = some (PyVal.int (ocvTest "CV_8UC3"))) ∧
     ((3 : Nat) = 4 → ∃ row, toImage ocvTest imageFields arrTest "" = Except.ok row ∧
        row.get "mode" = some (PyVal.int (ocvTest "CV_8UC4"))) ∧
     ((3 : Nat) ≠ 1 → (3 : Nat) ≠ 3 → (3 : Nat) ≠ 4 →
        toImage ocvTest imageFields arrTest "" =
          Except.error "Invalid number of channels")) :=
  ⟨rfl, toImage_channel_mode ocvTest arrTest "" 1 2 3 rfl⟩

theorem shape_validation_witness :
    arr2dTest.ndim ≠ 3 ∧
    toImage ocvTest imageFields arr2dTest "" = Except.error "Invalid array shape" :=
  ⟨by decide, (toImage_shape_validation ocvTest imageFields arr2dTest "").1 (by decide)⟩

theorem data_length_witness :
    toImage ocvTest imageFields arrTest "x" = Except.ok rowTest ∧
    ∃ (h w c : Nat) (d : List Nat),
      rowTest.get "height" = some (PyVal.int h) ∧
      rowTest.get "width" = some (PyVal.int w) ∧
      rowTest.get "nChannels" = some (PyVal.int c) ∧
      rowTest.get "data" = some (PyVal.bytes d) ∧
      d.length = h * w * c :=
  ⟨rfl, toImage_data_length ocvTest arrTest "x" rowTest rfl⟩

theorem field_order_witness :
    toImage ocvTest imageFields arrTest "x" = Except.ok rowTest ∧
    ∃ h w c m d, arrTest.shape = [h, w, c] ∧
      rowTest.values = [PyVal.str "x", PyVal.int h, PyVal.int w,
        PyVal.int c, PyVal.int m, PyVal.bytes d] :=
  ⟨rfl, toImage_field_order ocvTest imageFields arrTest "x" rowTest rfl⟩

theorem origin_default_witness :
    toImageNoOrigin ocvTest imageFields arrTest = Except.ok rowTest0 ∧
    rowTest0.get "origin" = some (PyVal.str "") :=
  ⟨rfl, toImage_origin_default ocvTest arrTest rowTest0 rfl⟩

theorem no_validation_witness :
    rowLong.get "height" = some (PyVal.int 1) ∧
    rowLong.get "width" = some (PyVal.int 1) ∧
    rowLong.get "nChannels" = some (PyVal.int 3) ∧
    rowLong.get "data" = some (PyVal.bytes [7, 8, 9, 10, 11]) ∧
    ((1 * 1 * 3 ≤ ([7, 8, 9, 10, 11] : List Nat).length →
      ∃ arr, toNDArray rowLong = some arr ∧ arr.shape = [1, 1, 3] ∧
        arr.data = (([7, 8, 9, 10, 11] : List Nat).take (1 * 1 * 3)).map Int.ofNat) ∧
     (([7, 8, 9, 10, 11] : List Nat).length < 1 * 1 * 3 →
      toNDArray rowLong = none)) :=
  ⟨rfl, rfl, rfl, rfl,
    toNDArray_no_validation rowLong 1 1 3 [7, 8, 9, 10, 11] rfl rfl rfl rfl⟩

theorem ignores_origin_mode_witness :
    rowTest.get "height" = rowVariant.get "height" ∧
    rowTest.get "width" = rowVariant.get "width" ∧
    rowTest.get "nChannels" = rowVariant.get "nChannels" ∧
    rowTest.get "data" = rowVariant.get "data" ∧
    toNDArray rowTest = toNDArray rowVariant :=
  ⟨rfl, rfl, rfl, rfl,
    toNDArray_ignores_origin_mode rowTest rowVariant rfl rfl rfl rfl⟩

theorem caching_witness :
    initAccessorState._imageSchema = none ∧
    engineTest.fetchSchema = Except.ok "imageSchemaJson" ∧
    imageSchemaProp engineTest initAccessorState =
      ({ initAccessorState with _imageSchema := some "imageSchemaJson" },
        Except.ok "imageSchemaJson", true) :=
  ⟨rfl, rfl,
    (metadata_caching_state_machine engineTest engineTest
      initAccessorState).1.2.1 "imageSchemaJson" rfl rfl⟩
